import Mathlib

/-!
Verification of the ESP32 Bluetooth speaker firmware core (src/main.cpp).

Strings are modelled as `List Char` (Arduino `String` is a byte buffer; all
operations used by the firmware — `indexOf`, `lastIndexOf`, `substring`,
`replace`, `trim`, `charAt`, `length` — are modelled below on `List Char`).
The event-driven state core (`loop`, the encoder/button handlers and the
Bluetooth callbacks) is modelled as a step function on an explicit state
record, returning the list of outbound transport commands.
-/

namespace ESP32Speaker

/-- Shorthand turning a Lean string literal into the `List Char` model. -/
def str (s : String) : List Char := s.toList

/-! ### Arduino `String` primitives -/

/-- Whitespace test used by Arduino `String::trim` (C `isspace`). -/
def isSpaceChar (c : Char) : Bool :=
  c = ' ' || c = '\t' || c = '\n' || c = '\x0b' || c = '\x0c' || c = '\r'

/-- Drop leading whitespace. -/
def trimLeft : List Char → List Char
  | [] => []
  | c :: cs => if isSpaceChar c then trimLeft cs else c :: cs

/-- Arduino `String::trim`: drop leading and trailing whitespace. -/
def trim (s : List Char) : List Char :=
  (trimLeft (trimLeft s).reverse).reverse

/-- Does `pat` occur at the start of `s`? -/
def startsWith : List Char → List Char → Bool
  | [], _ => true
  | _ :: _, [] => false
  | p :: ps, c :: cs => p = c && startsWith ps cs

/-- Index of the first occurrence of `pat` in `s` (Arduino `indexOf`,
`none` for not found). -/
def idxOfSub (pat : List Char) : List Char → Option Nat
  | [] => if startsWith pat [] then some 0 else none
  | c :: cs =>
    if startsWith pat (c :: cs) then some 0
    else (idxOfSub pat cs).map (· + 1)

/-- Index of the last occurrence of `pat` in `s` (Arduino `lastIndexOf`,
`none` for not found). -/
def lastIdxOfSub (pat : List Char) : List Char → Option Nat
  | [] => if startsWith pat [] then some 0 else none
  | c :: cs =>
    match lastIdxOfSub pat cs with
    | some j => some (j + 1)
    | none => if startsWith pat (c :: cs) then some 0 else none

/-- Arduino `String::indexOf` with its `-1` not-found convention. -/
def indexOfSub (pat s : List Char) : Int :=
  match idxOfSub pat s with
  | some i => (i : Int)
  | none => -1

/-- Arduino `String::lastIndexOf` with its `-1` not-found convention. -/
def lastIndexOfSub (pat s : List Char) : Int :=
  match lastIdxOfSub pat s with
  | some j => (j : Int)
  | none => -1

/-- Does `pat` occur anywhere in `s`? -/
def containsSub (pat s : List Char) : Bool :=
  (idxOfSub pat s).isSome

/-- Recursion core of `removeAll`, structurally recursive on a fuel
argument so that the kernel can evaluate it; every step either finishes or
shortens the string, so `fuel = s.length` always suffices. -/
def removeAllAux (pat : List Char) : Nat → List Char → List Char
  | 0, s => s
  | _ + 1, [] => []
  | fuel + 1, c :: cs =>
    if startsWith pat (c :: cs) ∧ pat ≠ [] then
      removeAllAux pat fuel (List.drop (pat.length - 1) cs)
    else
      c :: removeAllAux pat fuel cs

/-- Arduino `String::replace(pat, "")`: remove every occurrence of `pat`,
scanning left to right, resuming after each removed occurrence (the WString
implementation continues its `strstr` scan after the found pattern, so text
joined across a removal is not rescanned).  A removal of `pat` from
`c :: cs` continues on `List.drop (pat.length - 1) cs`, which equals
`List.drop pat.length (c :: cs)` since the guard forces `pat ≠ []`.
`replace` with an empty pattern returns the string unchanged, as in WString. -/
def removeAll (pat s : List Char) : List Char :=
  removeAllAux pat s.length s

/-! ### Text sanitizers (avrc_metadata_callback, main.cpp lines 438-487) -/

/-- Decorative substrings stripped from titles, in the order the code
applies them (main.cpp lines 457-466). -/
def titlePatterns : List (List Char) :=
  [str "(Official Video)", str "(Official Music Video)",
   str "(Official Audio)", str "(Lyric Video)", str "(Lyrics)",
   str "[Official Video]", str "[Official Music Video]",
   str "[Official Audio]", str "[Lyric Video]", str "[Lyrics]"]

/-- Sequential global removal of the ten decorative substrings, in code
order (main.cpp lines 457-466). -/
def removeTitleDecorations (s : List Char) : List Char :=
  titlePatterns.foldl (fun acc p => removeAll p acc) s

/-- Title branch of `avrc_metadata_callback` (main.cpp lines 443-473):
separator heuristic guarded by `indexOf(" - ") > 0` and
`dashPos > 0 && dashPos < length - 3`, then decoration removal, then trim. -/
def sanitizeTitle (s : List Char) : List Char :=
  let sep := str " - "
  let t :=
    if 0 < indexOfSub sep s then
      let dashPos := lastIndexOfSub sep s
      if 0 < dashPos ∧ dashPos < (s.length : Int) - 3 then
        List.drop (dashPos + 3).toNat s
      else s
    else s
  trim (removeTitleDecorations t)

/-- Artist branch of `avrc_metadata_callback` (main.cpp lines 475-487):
remove "VEVO", "Records", "Music", " - Topic" in that order, then trim. -/
def sanitizeArtist (s : List Char) : List Char :=
  trim (removeAll (str " - Topic")
         (removeAll (str "Music")
           (removeAll (str "Records")
             (removeAll (str "VEVO") s))))

/-- Artist patterns in code order (main.cpp lines 479-482). -/
def artistPatterns : List (List Char) :=
  [str "VEVO", str "Records", str "Music", str " - Topic"]

/-! ### Renderer text helpers (updateDisplay, main.cpp lines 171-314) -/

/-- Artist placeholder substitution (main.cpp lines 223-226). -/
def displayArtistOf (a : List Char) : List Char :=
  if a = str "Unknown Artist" ∨ a = [] ∨ a = str "From Phone" then
    str "No artist info"
  else a

/-- Title placeholder substitution (main.cpp lines 263-266). -/
def displayTitleOf (t : List Char) : List Char :=
  if t = str "No Track" ∨ t = str "Playing Music" then
    str "Loading..."
  else t

/-- Descending scan of the break-point loop (main.cpp lines 236-241 and
276-281): the first index in the given list at which `t` holds a space;
`21` when none does.  The code guard `i < t.length && t.charAt i = ' '`
is modelled as `t[i]? = some ' '`. -/
def breakLoop (t : List Char) : List Nat → Nat
  | [] => 21
  | i :: rest => if t[i]? = some ' ' then i else breakLoop t rest

/-- Break point used by both wrap blocks: scan `i = 21` down to `16`. -/
def breakPointOf (t : List Char) : Nat :=
  breakLoop t [21, 20, 19, 18, 17, 16]

/-- The word wrap applied to both the artist (main.cpp lines 229-258) and
the title (lines 269-298): identical logic with `maxCharsPerLine = 21`. -/
def wrapText (t : List Char) : List Char × List Char :=
  if t.length ≤ 21 then (t, [])
  else
    let bp := breakPointOf t
    let line1 := List.take bp t
    let line2 := trim (List.drop bp t)
    let line2 :=
      if line2.length > 21 then List.take (21 - 3) line2 ++ str "..."
      else line2
    (line1, line2)

/-! ### Spec-side definitions (stated from the specification's words,
to be compared with the code-derived definitions above) -/

/-- Break point as the claim words it: the space of highest index among
positions 16..21 of `t`, or exactly 21 when no space lies in that window
(the ascending filtered list's last element is the highest such index). -/
def specBreakC2 (t : List Char) : Nat :=
  ((([16, 17, 18, 19, 20, 21].filter
      (fun i => decide (t[i]? = some ' '))).getLast?).getD 21)

/-- The wrap as the claim words it: identity plus empty second line for
texts of at most 21 characters; otherwise break at `specBreakC2` with the
space excluded from line 1, trim the remainder, and truncate it to its
first 18 characters plus "..." when it still exceeds 21 characters. -/
def wrapSpecC2 (t : List Char) : List Char × List Char :=
  if t.length ≤ 21 then (t, [])
  else
    let bp := specBreakC2 t
    let line1 := List.take bp t
    let rest := trim (List.drop bp t)
    let line2 :=
      if rest.length > 21 then List.take 18 rest ++ str "..." else rest
    (line1, line2)

/-- Title sanitization exactly as claim C3 words it: strip after the last
" - " whenever the string contains the separator and that last occurrence
does not start within the final 3 characters; then remove decorations and
trim. -/
def sanitizeTitleClaim (s : List Char) : List Char :=
  let sep := str " - "
  let t :=
    match lastIdxOfSub sep s with
    | some j => if j + 3 < s.length then List.drop (j + 3) s else s
    | none => s
  trim (removeTitleDecorations t)

/-- Title sanitization as amended: the separator heuristic additionally
requires the first occurrence of " - " to start at a positive index (the
code tests `indexOf(" - ") > 0`, so a string beginning with the separator
is left alone). -/
def sanitizeTitleAmended (s : List Char) : List Char :=
  let sep := str " - "
  let t :=
    if 0 < indexOfSub sep s ∧ lastIndexOfSub sep s + 3 < (s.length : Int) then
      List.drop (lastIndexOfSub sep s + 3).toNat s
    else s
  trim (removeTitleDecorations t)

/-- Artist sanitization as the claim words it: remove every occurrence of
the four exact substrings, then trim surrounding whitespace. -/
def sanitizeArtistSpec (s : List Char) : List Char :=
  trim (artistPatterns.foldl (fun acc p => removeAll p acc) s)

/-! ### The event-driven state core -/

/-- The ApplicationState fields of the firmware: the globals `volume`,
the connection status reported by `a2dp_sink.is_connected()`,
`connectedDevice`, `isPlaying`, `trackTitle`, `artist` and the dirty flag
`displayNeedsUpdate` (main.cpp lines 36-44). -/
structure AppState where
  volume : Int
  connected : Bool
  connectedDevice : List Char
  playing : Bool
  trackTitle : List Char
  artist : List Char
  dirty : Bool
deriving DecidableEq, Repr

/-- Full mutable state of the core: the ApplicationState plus the encoder
positions, the button edge-detection statics of `handleButtons`, and the
play/pause toggle static `isPaused` (main.cpp lines 37-38, 370, 377, 393). -/
structure SysState where
  app : AppState
  lastVolumeEncoderPos : Int
  lastTrackEncoderPos : Int
  lastVolumeButton : Bool
  lastTrackButton : Bool
  isPaused : Bool
deriving DecidableEq, Repr

/-- Outbound transport commands issued to the Bluetooth stack. -/
inductive Cmd where
  | setVolume (v : Int)
  | play
  | pause
  | stop
  | next
  | previous
deriving DecidableEq, Repr

/-- AVRCP metadata attribute kinds dispatched by
`avrc_metadata_callback` (main.cpp lines 442-515). -/
inductive MetaAttr where
  | title
  | artist
  | album
  | trackNum
  | numTracks
  | genre
  | playingTime
  | unknownAttr
deriving DecidableEq, Repr

/-- Values of `esp_a2d_connection_state_t` seen by the connection
callback. -/
inductive A2DConnState where
  | disconnected
  | connecting
  | connected
  | disconnecting
deriving DecidableEq, Repr

/-- Arduino `constrain(amt, low, high)`. -/
def constrain (x lo hi : Int) : Int :=
  if x < lo then lo else if x > hi then hi else x

/-- `handleVolumeEncoder` (main.cpp lines 316-339), given the freshly
read encoder position: on any position change, invert the raw delta, step
the volume by 5 per detent, clamp to 0..100, send `set_volume`, record
the new position and mark the display dirty. -/
def handleVolumeEncoder (newPos : Int) (s : SysState) : SysState × List Cmd :=
  if newPos ≠ s.lastVolumeEncoderPos then
    let direction := newPos - s.lastVolumeEncoderPos
    let v := constrain (s.app.volume - direction * 5) 0 100
    ({ s with
        app := { s.app with volume := v, dirty := true },
        lastVolumeEncoderPos := newPos },
     [Cmd.setVolume v])
  else (s, [])

/-- `handleTrackEncoder` (main.cpp lines 341-366): next/previous only
when connected; the position is recorded either way; a logged no-op when
disconnected. -/
def handleTrackEncoder (newPos : Int) (s : SysState) : SysState × List Cmd :=
  if newPos ≠ s.lastTrackEncoderPos then
    let direction := newPos - s.lastTrackEncoderPos
    if s.app.connected then
      if direction > 0 then
        ({ s with
            app := { s.app with dirty := true },
            lastTrackEncoderPos := newPos }, [Cmd.next])
      else
        ({ s with
            app := { s.app with dirty := true },
            lastTrackEncoderPos := newPos }, [Cmd.previous])
    else
      ({ s with lastTrackEncoderPos := newPos }, [])
  else (s, [])

/-- `handleButtons` (main.cpp lines 368-407), given the two freshly read
button levels (`true` = HIGH).  A HIGH→LOW edge on the volume-knob button
toggles `isPaused` and issues play/pause when connected; an edge on the
track-knob button issues stop and clears `playing` when connected; both
are logged no-ops when disconnected; the last levels are recorded
unconditionally. -/
def handleButtons (volumeButton trackButton : Bool) (s : SysState) :
    SysState × List Cmd :=
  let r1 :=
    if volumeButton = false ∧ s.lastVolumeButton = true then
      if s.app.connected then
        if s.isPaused then
          ({ s with app := { s.app with dirty := true }, isPaused := false },
           [Cmd.play])
        else
          ({ s with app := { s.app with dirty := true }, isPaused := true },
           [Cmd.pause])
      else (s, ([] : List Cmd))
    else (s, ([] : List Cmd))
  let s1 : SysState := { r1.1 with lastVolumeButton := volumeButton }
  let r2 :=
    if trackButton = false ∧ s1.lastTrackButton = true then
      if s1.app.connected then
        ({ s1 with app := { s1.app with playing := false, dirty := true } },
         [Cmd.stop])
      else (s1, ([] : List Cmd))
    else (s1, ([] : List Cmd))
  ({ r2.1 with lastTrackButton := trackButton }, r1.2 ++ r2.2)

/-- `onBluetoothConnected` (main.cpp lines 409-424): the CONNECTED and
DISCONNECTED cases set their fields, every case marks the display dirty.
The `connected` field mirrors what `a2dp_sink.is_connected()` reports
after the transition. -/
def onBluetoothConnected (state : A2DConnState) (s : SysState) :
    SysState × List Cmd :=
  match state with
  | .connected =>
    ({ s with app := { s.app with
        connected := true,
        connectedDevice := str "Phone Connected",
        playing := false,
        dirty := true } }, [])
  | .disconnected =>
    ({ s with app := { s.app with
        connected := false,
        connectedDevice := str "Not Connected",
        playing := false,
        trackTitle := str "No Track",
        artist := str "Unknown Artist",
        dirty := true } }, [])
  | _ =>
    ({ s with app := { s.app with dirty := true } }, [])

/-- `read_data_stream` (main.cpp lines 426-436): forwarding the PCM
payload is the audio sink's business; the state effect is the one-shot
`playing` transition. -/
def read_data_stream (s : SysState) : SysState × List Cmd :=
  if s.app.playing = false then
    ({ s with app := { s.app with playing := true, dirty := true } }, [])
  else (s, [])

/-- `avrc_metadata_callback` (main.cpp lines 438-518): title and artist
are sanitized and stored, every other attribute is only logged; the
display is marked dirty at the end in every case. -/
def avrc_metadata_callback (attr : MetaAttr) (text : List Char)
    (s : SysState) : SysState × List Cmd :=
  let app :=
    match attr with
    | .title => { s.app with trackTitle := sanitizeTitle text }
    | .artist => { s.app with artist := sanitizeArtist text }
    | _ => s.app
  ({ s with app := { app with dirty := true } }, [])

/-- The renderer step (main.cpp lines 94-98): `updateDisplay` reads the
state and draws; afterwards the loop clears `displayNeedsUpdate`. -/
def renderStep (s : SysState) : SysState × List Cmd :=
  ({ s with app := { s.app with dirty := false } }, [])

/-- Input and callback events of the core. -/
inductive Event where
  | volEnc (newPos : Int)
  | trkEnc (newPos : Int)
  | buttons (volumeButton trackButton : Bool)
  | connState (state : A2DConnState)
  | audioData
  | metadata (attr : MetaAttr) (text : List Char)
  | render
deriving DecidableEq, Repr

/-- One step of the core: dispatch an event to its handler. -/
def step (e : Event) (s : SysState) : SysState × List Cmd :=
  match e with
  | .volEnc p => handleVolumeEncoder p s
  | .trkEnc p => handleTrackEncoder p s
  | .buttons vb tb => handleButtons vb tb s
  | .connState st => onBluetoothConnected st s
  | .audioData => read_data_stream s
  | .metadata attr text => avrc_metadata_callback attr text s
  | .render => renderStep s

/-- Run a sequence of events, keeping only the state. -/
def runEvents (es : List Event) (s : SysState) : SysState :=
  es.foldl (fun s e => (step e s).1) s

/-- Startup state from the global initializers (main.cpp lines 36-48):
`volume = 50`, placeholders everywhere, `displayNeedsUpdate = true`,
encoder positions 0, button statics HIGH, `isPaused = false`. -/
def initialState : SysState :=
  { app :=
      { volume := 50
        connected := false
        connectedDevice := str "Not Connected"
        playing := false
        trackTitle := str "No Track"
        artist := str "Unknown Artist"
        dirty := true }
    lastVolumeEncoderPos := 0
    lastTrackEncoderPos := 0
    lastVolumeButton := true
    lastTrackButton := true
    isPaused := false }

/-- The ApplicationState fields other than the dirty flag, bundled for
talking about "mutations" without the flag itself. -/
def appCore (a : AppState) :
    Int × Bool × List Char × Bool × List Char × List Char :=
  (a.volume, a.connected, a.connectedDevice, a.playing, a.trackTitle,
   a.artist)

/-! ### Helper lemmas -/

lemma containsSub_cons (pat : List Char) (c : Char) (cs : List Char) :
    containsSub pat (c :: cs)
      = (startsWith pat (c :: cs) || containsSub pat cs) := by
  simp only [containsSub, idxOfSub]
  cases h : startsWith pat (c :: cs) <;> cases hx : idxOfSub pat cs <;>
    simp [h, hx]

lemma containsSub_eq_false_iff (pat s : List Char) :
    containsSub pat s = false ↔ idxOfSub pat s = none := by
  unfold containsSub
  cases hx : idxOfSub pat s <;> simp

lemma removeAllAux_of_not_contains (pat : List Char) (fuel : Nat) :
    ∀ s : List Char, containsSub pat s = false →
      removeAllAux pat fuel s = s := by
  induction fuel with
  | zero => intro s _; rfl
  | succ n ih =>
    intro s h
    cases s with
    | nil => rfl
    | cons c cs =>
      rw [containsSub_cons] at h
      simp only [Bool.or_eq_false_iff] at h
      unfold removeAllAux
      rw [if_neg (by simp [h.1])]
      rw [ih cs h.2]

lemma removeAll_of_not_contains (pat s : List Char)
    (h : containsSub pat s = false) : removeAll pat s = s :=
  removeAllAux_of_not_contains pat s.length s h

lemma idxOfSub_eq_none_iff (pat : List Char) :
    ∀ s : List Char, idxOfSub pat s = none ↔ lastIdxOfSub pat s = none := by
  intro s
  induction s with
  | nil => unfold idxOfSub lastIdxOfSub; cases h : startsWith pat [] <;> simp
  | cons c cs ih =>
    unfold idxOfSub lastIdxOfSub
    cases h : startsWith pat (c :: cs) <;>
      cases hx : idxOfSub pat cs <;> cases hy : lastIdxOfSub pat cs <;>
      rw [hx, hy] at ih <;> simp_all

lemma idx_le_lastIdx (pat : List Char) :
    ∀ (s : List Char) (i j : Nat), idxOfSub pat s = some i →
      lastIdxOfSub pat s = some j → i ≤ j := by
  intro s
  induction s with
  | nil =>
    intro i j hi hj
    unfold idxOfSub at hi
    unfold lastIdxOfSub at hj
    cases h : startsWith pat [] <;> rw [h] at hi hj <;> simp_all
  | cons c cs ih =>
    intro i j hi hj
    unfold idxOfSub at hi
    unfold lastIdxOfSub at hj
    cases h : startsWith pat (c :: cs)
    · rw [h] at hi hj
      cases hx : idxOfSub pat cs with
      | none => rw [hx] at hi; simp at hi
      | some i0 =>
        rw [hx] at hi
        simp at hi
        cases hy : lastIdxOfSub pat cs with
        | none =>
          have hnone := (idxOfSub_eq_none_iff pat cs).2 hy
          rw [hx] at hnone
          exact absurd hnone (by simp)
        | some j0 =>
          rw [hy] at hj
          simp at hj
          have := ih i0 j0 hx hy
          omega
    · rw [h] at hi
      simp at hi
      cases hy : lastIdxOfSub pat cs with
      | none => rw [hy, h] at hj; simp at hj; omega
      | some j0 => rw [hy] at hj; simp at hj; omega

lemma indexOfSub_le_lastIndexOfSub (pat s : List Char) :
    indexOfSub pat s ≤ lastIndexOfSub pat s := by
  unfold indexOfSub lastIndexOfSub
  cases hx : idxOfSub pat s with
  | none =>
    rw [(idxOfSub_eq_none_iff pat s).1 hx]
  | some i =>
    cases hy : lastIdxOfSub pat s with
    | none =>
      have hnone := (idxOfSub_eq_none_iff pat s).2 hy
      rw [hx] at hnone
      exact absurd hnone (by simp)
    | some j =>
      have hij := idx_le_lastIdx pat s i j hx hy
      show ((i : Nat) : Int) ≤ ((j : Nat) : Int)
      exact_mod_cast hij

lemma constrain_mem (x : Int) :
    0 ≤ constrain x 0 100 ∧ constrain x 0 100 ≤ 100 := by
  unfold constrain
  split_ifs <;> omega

lemma breakPointOf_eq_specBreak (t : List Char) :
    breakPointOf t = specBreakC2 t := by
  unfold breakPointOf specBreakC2
  by_cases h21 : t[21]? = some ' ' <;>
    by_cases h20 : t[20]? = some ' ' <;>
    by_cases h19 : t[19]? = some ' ' <;>
    by_cases h18 : t[18]? = some ' ' <;>
    by_cases h17 : t[17]? = some ' ' <;>
    by_cases h16 : t[16]? = some ' ' <;>
    simp +decide [breakLoop, List.filter, h16, h17, h18, h19, h20, h21]

lemma breakPointOf_le (t : List Char) : breakPointOf t ≤ 21 := by
  unfold breakPointOf
  simp only [breakLoop]
  split_ifs <;> omega

lemma runEvents_cons (e : Event) (es : List Event) (s : SysState) :
    runEvents (e :: es) s = runEvents es (step e s).1 := rfl

lemma step_dirty_or_id (e : Event) (s : SysState) (h : e ≠ Event.render) :
    (step e s).1.app.dirty = true ∨ (step e s).1.app = s.app := by
  cases e with
  | volEnc p =>
    simp only [step, handleVolumeEncoder]
    split_ifs <;> simp
  | trkEnc p =>
    simp only [step, handleTrackEncoder]
    split_ifs <;> simp
  | buttons vb tb =>
    simp only [step, handleButtons]
    split_ifs <;> simp_all
  | connState st =>
    cases st <;> simp [step, onBluetoothConnected]
  | audioData =>
    simp only [step, read_data_stream]
    split_ifs <;> simp
  | metadata attr text =>
    cases attr <;> simp [step, avrc_metadata_callback]
  | render => exact absurd rfl h

lemma step_dirty_mono (e : Event) (s : SysState) (h : e ≠ Event.render)
    (hd : s.app.dirty = true) : (step e s).1.app.dirty = true := by
  rcases step_dirty_or_id e s h with h1 | h1
  · exact h1
  · rw [h1]; exact hd

lemma runEvents_dirty (es : List Event) :
    ∀ s : SysState, (∀ e ∈ es, e ≠ Event.render) → s.app.dirty = true →
      (runEvents es s).app.dirty = true := by
  induction es with
  | nil => intro s _ hd; exact hd
  | cons e es ih =>
    intro s hne hd
    rw [runEvents_cons]
    exact ih _ (fun x hx => hne x (List.mem_cons_of_mem e hx))
      (step_dirty_mono e s (hne e (List.mem_cons_self e es)) hd)

lemma sanitizeTitle_eq_amended_aux (s : List Char) :
    sanitizeTitle s = sanitizeTitleAmended s := by
  simp only [sanitizeTitle, sanitizeTitleAmended]
  congr 2
  have hle := indexOfSub_le_lastIndexOfSub (str " - ") s
  by_cases h1 : 0 < indexOfSub (str " - ") s
  · by_cases h2 : lastIndexOfSub (str " - ") s + 3 < (s.length : Int)
    · rw [if_pos h1,
        if_pos (show 0 < lastIndexOfSub (str " - ") s ∧
            lastIndexOfSub (str " - ") s < (s.length : Int) - 3 from
          ⟨by omega, by omega⟩),
        if_pos (show 0 < indexOfSub (str " - ") s ∧
            lastIndexOfSub (str " - ") s + 3 < (s.length : Int) from
          ⟨h1, h2⟩)]
    · rw [if_pos h1,
        if_neg (fun hc : 0 < lastIndexOfSub (str " - ") s ∧
            lastIndexOfSub (str " - ") s < (s.length : Int) - 3 =>
          h2 (by have := hc.2; omega)),
        if_neg (fun hc : 0 < indexOfSub (str " - ") s ∧
            lastIndexOfSub (str " - ") s + 3 < (s.length : Int) =>
          h2 hc.2)]
  · rw [if_neg h1,
      if_neg (fun hc : 0 < indexOfSub (str " - ") s ∧
          lastIndexOfSub (str " - ") s + 3 < (s.length : Int) =>
        h1 hc.1)]

lemma wrapText_eq_spec_aux (t : List Char) : wrapText t = wrapSpecC2 t := by
  simp only [wrapText, wrapSpecC2, breakPointOf_eq_specBreak]

lemma wrapText_fst_le (t : List Char) : (wrapText t).1.length ≤ 21 := by
  have hb := breakPointOf_le t
  simp only [wrapText]
  split_ifs with h1 h2 <;>
    simp [List.length_take] <;> omega

lemma wrapText_snd_le (t : List Char) : (wrapText t).2.length ≤ 21 := by
  have h3 : (str "...").length = 3 := rfl
  simp only [wrapText]
  split_ifs with h1 h2 <;>
    first
      | (simp [List.length_take, List.length_append, h3]; omega)
      | simp [List.length_take, List.length_append, h3]

/-! ### Claims -/

/-- C1: for every prior volume in [0,100] and every nonzero volume-encoder
delta d, one run of the volume path sets volume to
clamp(volume - 5*d, 0, 100), and the volume stays in [0,100] after any
sequence of volume-encoder events. -/
theorem volumePath_clamps_C1 :
    (∀ (s : SysState) (p : Int), 0 ≤ s.app.volume → s.app.volume ≤ 100 →
        p ≠ s.lastVolumeEncoderPos →
        (handleVolumeEncoder p s).1.app.volume
            = constrain (s.app.volume - 5 * (p - s.lastVolumeEncoderPos))
                0 100
          ∧ 0 ≤ (handleVolumeEncoder p s).1.app.volume
          ∧ (handleVolumeEncoder p s).1.app.volume ≤ 100)
    ∧ ∀ (s : SysState) (ps : List Int),
        0 ≤ s.app.volume → s.app.volume ≤ 100 →
        0 ≤ (runEvents (ps.map Event.volEnc) s).app.volume
          ∧ (runEvents (ps.map Event.volEnc) s).app.volume ≤ 100 := by
  constructor
  · intro s p _ _ hne
    simp only [handleVolumeEncoder, if_pos hne]
    refine ⟨by ring_nf, ?_, ?_⟩
    · exact (constrain_mem _).1
    · exact (constrain_mem _).2
  · intro s ps
    induction ps generalizing s with
    | nil => intro h0 h1; exact ⟨h0, h1⟩
    | cons p ps ih =>
      intro h0 h1
      rw [List.map_cons, runEvents_cons]
      apply ih
      all_goals
        simp only [step, handleVolumeEncoder]
        split_ifs
        · first
            | exact (constrain_mem _).1
            | exact (constrain_mem _).2
        · first
            | exact h0
            | exact h1

/-- Witness for C1 at volume 50 and encoder delta 1. -/
theorem volumePath_clamps_C1_witness :
    (0 ≤ initialState.app.volume ∧ initialState.app.volume ≤ 100
      ∧ (1 : Int) ≠ initialState.lastVolumeEncoderPos)
    ∧ ((handleVolumeEncoder 1 initialState).1.app.volume
          = constrain
              (initialState.app.volume
                - 5 * (1 - initialState.lastVolumeEncoderPos)) 0 100
        ∧ 0 ≤ (handleVolumeEncoder 1 initialState).1.app.volume
        ∧ (handleVolumeEncoder 1 initialState).1.app.volume ≤ 100) :=
  ⟨⟨by decide, by decide, by decide⟩,
   volumePath_clamps_C1.1 initialState 1 (by decide) (by decide) (by decide)⟩

/-- C2: the wrap behaves exactly as claimed (break at the space of
highest index in positions 16..21, else a hard break at 21; remainder
trimmed and, when still over 21 characters, truncated to its first 18
characters plus "..."), and neither emitted line ever exceeds 21
characters.  The no-space example from the specification is included. -/
theorem wrap_C2 :
    (∀ t : List Char, wrapText t = wrapSpecC2 t
        ∧ (wrapText t).1.length ≤ 21 ∧ (wrapText t).2.length ≤ 21)
    ∧ wrapText (str "NoSpacesAtAllInThisLongTextString")
        = (str "NoSpacesAtAllInThisLo", str "ngTextString") :=
  ⟨fun t => ⟨wrapText_eq_spec_aux t, wrapText_fst_le t, wrapText_snd_le t⟩,
   by decide⟩

/-- C3 counterexample: the code only strips the separator when
`indexOf(" - ") > 0`, so a title beginning with " - " is not stripped,
while the claim (which only excludes last occurrences starting in the
final 3 characters) demands stripping it. -/
theorem sanitizeTitle_C3_counterexample :
    sanitizeTitleClaim (str " - Song") = str "Song"
      ∧ sanitizeTitle (str " - Song") = str "- Song"
      ∧ sanitizeTitle (str " - Song") ≠ sanitizeTitleClaim (str " - Song") :=
  ⟨by decide, by decide, by decide⟩

/-- C3 as amended: the separator is stripped only when additionally its
first occurrence starts at a positive index; decoration removal and
trimming are as claimed, and
sanitizeTitle "Artist - Song (Official Video)" = "Song". -/
theorem sanitizeTitle_C3_amended :
    (∀ s : List Char, sanitizeTitle s = sanitizeTitleAmended s)
    ∧ sanitizeTitle (str "Artist - Song (Official Video)") = str "Song" :=
  ⟨sanitizeTitle_eq_amended_aux, by decide⟩

/-- C4 counterexample: an empty stored title is rendered as the empty
line, not as "Loading..." (the code checks only the two placeholder
strings). -/
theorem displayTitle_C4_counterexample :
    displayTitleOf [] ≠ str "Loading..." := by decide

/-- C4 as amended: exactly the two placeholder titles "No Track" and
"Playing Music" are rendered as "Loading..."; an empty stored title is
rendered unchanged (as the empty line). -/
theorem displayTitle_C4_amended :
    (∀ t : List Char, t = str "No Track" ∨ t = str "Playing Music" →
        displayTitleOf t = str "Loading...")
    ∧ displayTitleOf [] = [] := by
  constructor
  · intro t h
    rcases h with h | h <;> subst h <;> decide
  · decide

/-- Witness for the amended C4 at the placeholder "No Track". -/
theorem displayTitle_C4_witness :
    displayTitleOf (str "No Track") = str "Loading..." :=
  displayTitle_C4_amended.1 _ (Or.inl rfl)

/-- C5: artist sanitization removes every occurrence of "VEVO",
"Records", "Music", " - Topic" and trims, with
sanitizeArtist "SomeBand - Topic" = "SomeBand"; and an empty,
placeholder, or "From Phone" stored artist is rendered as
"No artist info". -/
theorem sanitizeArtist_C5 :
    sanitizeArtist (str "SomeBand - Topic") = str "SomeBand"
    ∧ (∀ s : List Char, sanitizeArtist s = sanitizeArtistSpec s)
    ∧ (∀ a : List Char,
        a = [] ∨ a = str "Unknown Artist" ∨ a = str "From Phone" →
        displayArtistOf a = str "No artist info") := by
  refine ⟨by decide, fun s => rfl, ?_⟩
  intro a h
  rcases h with h | h | h <;> subst h <;> decide

/-- Witness for C5 at the empty artist. -/
theorem sanitizeArtist_C5_witness :
    displayArtistOf [] = str "No artist info" :=
  sanitizeArtist_C5.2.2 [] (Or.inl rfl)

/-- C6 counterexample: sanitization is not idempotent on every string —
removing "(Lyrics)" from "(Official(Lyrics) Video)" creates a fresh
"(Official Video)" that only a second pass would remove. -/
theorem sanitize_idempotent_C6_counterexample :
    sanitizeTitle (sanitizeTitle (str "(Official(Lyrics) Video)"))
      ≠ sanitizeTitle (str "(Official(Lyrics) Video)") := by decide

/-- C6 as amended: sanitization is the identity on already-clean
strings — a trimmed string containing no separator and none of the
decorative patterns passes through sanitizeTitle unchanged, and a
trimmed string containing none of the artist patterns passes through
sanitizeArtist unchanged. -/
theorem sanitize_idempotent_C6_amended :
    (∀ s : List Char, trim s = s → containsSub (str " - ") s = false →
        (∀ p ∈ titlePatterns, containsSub p s = false) →
        sanitizeTitle s = s)
    ∧ (∀ a : List Char, trim a = a →
        (∀ p ∈ artistPatterns, containsSub p a = false) →
        sanitizeArtist a = a) := by
  constructor
  · intro s h1 h2 h3
    have hidx : idxOfSub (str " - ") s = none :=
      (containsSub_eq_false_iff _ _).1 h2
    have hsep : indexOfSub (str " - ") s = -1 := by
      unfold indexOfSub
      rw [hidx]
    have hdec : removeTitleDecorations s = s := by
      unfold removeTitleDecorations titlePatterns
      simp only [List.foldl_cons, List.foldl_nil]
      rw [removeAll_of_not_contains _ _ (h3 _ (by simp [titlePatterns])),
        removeAll_of_not_contains _ _ (h3 _ (by simp [titlePatterns])),
        removeAll_of_not_contains _ _ (h3 _ (by simp [titlePatterns])),
        removeAll_of_not_contains _ _ (h3 _ (by simp [titlePatterns])),
        removeAll_of_not_contains _ _ (h3 _ (by simp [titlePatterns])),
        removeAll_of_not_contains _ _ (h3 _ (by simp [titlePatterns])),
        removeAll_of_not_contains _ _ (h3 _ (by simp [titlePatterns])),
        removeAll_of_not_contains _ _ (h3 _ (by simp [titlePatterns])),
        removeAll_of_not_contains _ _ (h3 _ (by simp [titlePatterns])),
        removeAll_of_not_contains _ _ (h3 _ (by simp [titlePatterns]))]
    simp only [sanitizeTitle, hsep]
    norm_num
    rw [hdec, h1]
  · intro a h1 h2
    unfold sanitizeArtist
    rw [removeAll_of_not_contains _ _ (h2 _ (by simp [artistPatterns])),
      removeAll_of_not_contains _ _ (h2 _ (by simp [artistPatterns])),
      removeAll_of_not_contains _ _ (h2 _ (by simp [artistPatterns])),
      removeAll_of_not_contains _ _ (h2 _ (by simp [artistPatterns])),
      h1]

/-- Witness for the amended C6 on concrete clean strings. -/
theorem sanitize_idempotent_C6_witness :
    sanitizeTitle (str "Hello World") = str "Hello World"
    ∧ sanitizeArtist (str "Clean Band") = str "Clean Band" :=
  ⟨sanitize_idempotent_C6_amended.1 _ (by decide) (by decide) (by decide),
   sanitize_idempotent_C6_amended.2 _ (by decide) (by decide)⟩

/-- C7 counterexample: after a renderer run, an informational metadata
event (album) mutates no ApplicationState field other than the dirty
flag, yet sets the dirty flag — so dirty does not stay false after a
render with no intervening mutation. -/
theorem dirty_C7_counterexample :
    (step Event.render initialState).1.app.dirty = false
    ∧ appCore (step (Event.metadata MetaAttr.album [])
          (step Event.render initialState).1).1.app
        = appCore (step Event.render initialState).1.app
    ∧ (step (Event.metadata MetaAttr.album [])
          (step Event.render initialState).1).1.app.dirty = true :=
  ⟨by decide, by decide, by decide⟩

/-- C7 as amended: every event that mutates a non-dirty ApplicationState
field sets the dirty flag; no event other than the renderer clears it
(so dirty stays true across any render-free event sequence); the
renderer clears it and mutates nothing else — but some events (e.g.
informational metadata) set dirty without mutating, so after a render
the flag only stays false until the next event, not necessarily the next
mutation. -/
theorem dirty_C7_amended :
    (∀ (e : Event) (s : SysState), e ≠ Event.render →
        appCore (step e s).1.app ≠ appCore s.app →
        (step e s).1.app.dirty = true)
    ∧ (∀ (e : Event) (s : SysState), e ≠ Event.render →
        s.app.dirty = true → (step e s).1.app.dirty = true)
    ∧ (∀ s : SysState, (step Event.render s).1.app.dirty = false
        ∧ appCore (step Event.render s).1.app = appCore s.app)
    ∧ (∀ (es : List Event) (s : SysState),
        (∀ e ∈ es, e ≠ Event.render) → s.app.dirty = true →
        (runEvents es s).app.dirty = true) := by
  refine ⟨?_, ?_, ?_, ?_⟩
  · intro e s hne hm
    rcases step_dirty_or_id e s hne with h1 | h1
    · exact h1
    · exact absurd (by rw [h1]) hm
  · exact fun e s hne hd => step_dirty_mono e s hne hd
  · intro s
    exact ⟨rfl, rfl⟩
  · exact fun es s h hd => runEvents_dirty es s h hd

/-- Witness for the amended C7 on concrete events from the startup
state. -/
theorem dirty_C7_witness :
    (step (Event.connState A2DConnState.connected) initialState).1.app.dirty
        = true
    ∧ (step Event.audioData initialState).1.app.dirty = true
    ∧ (step Event.render initialState).1.app.dirty = false
    ∧ (runEvents [Event.audioData] initialState).app.dirty = true :=
  ⟨dirty_C7_amended.1 _ initialState (by decide) (by decide),
   dirty_C7_amended.2.1 Event.audioData initialState (by decide) (by decide),
   (dirty_C7_amended.2.2.1 initialState).1,
   dirty_C7_amended.2.2.2 [Event.audioData] initialState (by decide)
     (by decide)⟩

/-- C8: handling a disconnect event sets connected and playing to false,
resets the title and artist to their placeholder defaults and marks the
state dirty, regardless of the prior state. -/
theorem disconnect_C8 :
    ∀ s : SysState,
      (onBluetoothConnected A2DConnState.disconnected s).1.app.connected
          = false
      ∧ (onBluetoothConnected A2DConnState.disconnected s).1.app.playing
          = false
      ∧ (onBluetoothConnected A2DConnState.disconnected s).1.app.trackTitle
          = str "No Track"
      ∧ (onBluetoothConnected A2DConnState.disconnected s).1.app.artist
          = str "Unknown Artist"
      ∧ (onBluetoothConnected A2DConnState.disconnected s).1.app.dirty
          = true :=
  fun _ => ⟨rfl, rfl, rfl, rfl, rfl⟩

/-- C9: when no device is connected, a track-encoder event and a buttons
event issue no transport command and leave every ApplicationState field,
the dirty flag included, unchanged. -/
theorem disconnected_noop_C9 :
    ∀ (s : SysState) (p : Int) (vb tb : Bool), s.app.connected = false →
      ((handleTrackEncoder p s).1.app = s.app
        ∧ (handleTrackEncoder p s).2 = [])
      ∧ ((handleButtons vb tb s).1.app = s.app
        ∧ (handleButtons vb tb s).2 = []) := by
  intro s p vb tb hc
  constructor
  · simp only [handleTrackEncoder]
    split_ifs <;> simp_all
  · simp only [handleButtons]
    split_ifs <;> simp_all

/-- Witness for C9: from the (disconnected) startup state, a rotation
and simultaneous presses of both buttons do nothing. -/
theorem disconnected_noop_C9_witness :
    initialState.app.connected = false
    ∧ (((handleTrackEncoder 1 initialState).1.app = initialState.app
        ∧ (handleTrackEncoder 1 initialState).2 = [])
      ∧ ((handleButtons false false initialState).1.app = initialState.app
        ∧ (handleButtons false false initialState).2 = [])) :=
  ⟨by decide, disconnected_noop_C9 initialState 1 false false (by decide)⟩

/-- C10: the volume path is not connection-guarded — for every nonzero
volume-encoder delta, whatever the connection status, the handler
updates the volume to the clamped value, issues the volume-set command,
and sets the dirty flag; its volume, command and dirty outputs do not
depend on the connected field at all. -/
theorem volume_unguarded_C10 :
    ∀ (s : SysState) (p : Int) (b : Bool), p ≠ s.lastVolumeEncoderPos →
      (handleVolumeEncoder p s).1.app.volume
          = constrain (s.app.volume - (p - s.lastVolumeEncoderPos) * 5)
              0 100
      ∧ (handleVolumeEncoder p s).2
          = [Cmd.setVolume
              (constrain (s.app.volume - (p - s.lastVolumeEncoderPos) * 5)
                0 100)]
      ∧ (handleVolumeEncoder p s).1.app.dirty = true
      ∧ (handleVolumeEncoder p
            { s with app := { s.app with connected := b } }).1.app.volume
          = (handleVolumeEncoder p s).1.app.volume
      ∧ (handleVolumeEncoder p
            { s with app := { s.app with connected := b } }).2
          = (handleVolumeEncoder p s).2
      ∧ (handleVolumeEncoder p
            { s with app := { s.app with connected := b } }).1.app.dirty
          = (handleVolumeEncoder p s).1.app.dirty := by
  intro s p b hne
  have hne' : p ≠ ({ s with app := { s.app with connected := b } } :
      SysState).lastVolumeEncoderPos := hne
  simp only [handleVolumeEncoder, if_pos hne, if_pos hne']
  exact ⟨trivial, trivial, trivial, trivial, trivial, trivial⟩

/-- Witness for C10 from the (disconnected) startup state. -/
theorem volume_unguarded_C10_witness :
    ((1 : Int) ≠ initialState.lastVolumeEncoderPos
      ∧ initialState.app.connected = false)
    ∧ ((handleVolumeEncoder 1 initialState).1.app.volume
          = constrain
              (initialState.app.volume
                - (1 - initialState.lastVolumeEncoderPos) * 5) 0 100
        ∧ (handleVolumeEncoder 1 initialState).2
            = [Cmd.setVolume
                (constrain
                  (initialState.app.volume
                    - (1 - initialState.lastVolumeEncoderPos) * 5) 0 100)]
        ∧ (handleVolumeEncoder 1 initialState).1.app.dirty = true
        ∧ (handleVolumeEncoder 1
              { initialState with
                app := { initialState.app with connected := false } }
            ).1.app.volume
            = (handleVolumeEncoder 1 initialState).1.app.volume
        ∧ (handleVolumeEncoder 1
              { initialState with
                app := { initialState.app with connected := false } }).2
            = (handleVolumeEncoder 1 initialState).2
        ∧ (handleVolumeEncoder 1
              { initialState with
                app := { initialState.app with connected := false } }
            ).1.app.dirty
            = (handleVolumeEncoder 1 initialState).1.app.dirty) :=
  ⟨⟨by decide, by decide⟩,
   volume_unguarded_C10 initialState 1 false (by decide)⟩

end ESP32Speaker
